import Mathlib

/-!
Verification of the live-port-watch monitoring core.

The definitions below are a shallow embedding of the code of the repository:
* `PortStatus`, `applyResult`, `markChecking`, `roleResult`, `cycleStep`,
  `startState`, `Reachable`, `runClosed` model the per-endpoint state
  machine of `checkAllPorts` in the PortChecker component
  (src/unnamed/part_002, lines 128-248), where the per-endpoint state is
  the entry of `closedTimestamps` / `emailSent` keyed by `"brand-ipType"`
  together with the rendered `PortStatus`.
* `checkPort` models the frontend probe wrapper (part_002, lines 112-125).
* `ProbeResult`, `ConnectOutcome`, `checkPortConnection`, `clampTimeoutMs`,
  `BRANDS`, `handleCheckPort` model the check-port edge function
  (src/unnamed/part_001).
Side effects (alarm start/stop, toasts, the email Notifier invocation) are
recorded as explicit `Event` values in the order the code performs them.
-/

/-- Status values of the UI state machine: the string union
`"checking" | "open" | "closed" | "idle"` from part_002 line 7.
The spec calls the `idle` status "unknown".  `open_` renders the
reserved word `open`. -/
inductive PortStatus where
  | checking
  | open_
  | closed
  | idle
deriving DecidableEq, Repr

/-- Per-endpoint tracked state: the rendered status plus, for the key
`"brand-ipType"`, the entry of the `closedTimestamps` map (`none` when the
key is absent) and the entry of the `emailSent` map (absence modelled as
`false`, matching the JS falsiness test `!emailSent.current[key]`). -/
structure EndpointState where
  status : PortStatus
  closedSince : Option Nat
  emailSent : Bool
deriving DecidableEq, Repr

/-- Observable side effects of one probe-handling step of `checkAllPorts`,
in program order: `startAlarm` is `startContinuousAlarm(key)`,
`toastClosed` the `toast.error(... PORT CLOSED!)` notice, `emailAlert t`
the `sendEmailAlert(brand, ip, ipType, closedSince)` Notifier call whose
`closedSince` argument renders the original closure timestamp `t`,
`stopAlarm` is `stopContinuousAlarm(key)` and `toastRecovered` the
`toast.success(... recovered!)` notice. -/
inductive Event where
  | startAlarm
  | toastClosed
  | emailAlert (closedSinceMs : Nat)
  | stopAlarm
  | toastRecovered
deriving DecidableEq, Repr

/-- Escalation dwell threshold: `closedDuration >= 120000` (part_002
lines 181 and 225). -/
def escalationThresholdMs : Nat := 120000

/-- Repeating-alarm cadence: `setInterval(() => playSimpleBeep(), 3000)`
in `startContinuousAlarm` (part_002 lines 80-82). -/
def alarmIntervalMs : Nat := 3000

/-- One result-handling step of `checkAllPorts` for a single endpoint
(part_002 lines 149-246, shown for the Brain Net role; the Live IP role is
the identical code with the other key).  The status cell is first set to
the probe result (lines 150-158).  If the result is `closed`, a fresh
closure records `closedSince := now`, `emailSent := false`, starts the
alarm and surfaces the closed notice (lines 162-177); then the escalation
check `now - closedSince >= 120000 && !emailSent` fires the email Notifier
with the recorded timestamp and sets `emailSent := true` (lines 179-185).
That duration check is written here inside both arms of the fresh-closure
test, with `closedSince` and `emailSent` taking the values they hold at
that point in the source.  If the result is `open` and a closure was being
tracked, the tracking entries are deleted, the alarm stopped and the
recovery notice surfaced (lines 186-202).  Any other result leaves the
tracking state untouched. -/
def applyResult (s : EndpointState) (r : PortStatus) (now : Nat) :
    EndpointState × List Event :=
  let s0 : EndpointState := { s with status := r }
  if r = .closed then
    match s0.closedSince with
    | none =>
      let s1 : EndpointState := { s0 with closedSince := some now, emailSent := false }
      if escalationThresholdMs ≤ now - now ∧ s1.emailSent = false then
        ({ s1 with emailSent := true },
          [Event.startAlarm, Event.toastClosed, Event.emailAlert now])
      else
        (s1, [Event.startAlarm, Event.toastClosed])
    | some t0 =>
      if escalationThresholdMs ≤ now - t0 ∧ s0.emailSent = false then
        ({ s0 with emailSent := true }, [Event.emailAlert t0])
      else
        (s0, [])
  else if r = .open_ then
    match s0.closedSince with
    | some _ =>
      ({ s0 with closedSince := none, emailSent := false },
        [Event.stopAlarm, Event.toastRecovered])
    | none => (s0, [])
  else (s0, [])

/-- The per-cycle `setBrandStatuses(... "checking" ...)` update that marks
an endpoint as being probed (part_002 lines 135-139). -/
def markChecking (s : EndpointState) : EndpointState :=
  { s with status := .checking }

/-- Result actually fed to the handler for a role: an empty host is
skipped and reported as `"idle"`, otherwise the probe outcome is used
(`brandConfig.brain_net_ip ? await checkPort(...) : "idle"`, part_002
lines 142-144). -/
def roleResult (host : String) (r : PortStatus) : PortStatus :=
  if host = "" then .idle else r

/-- One full probe cycle for one endpoint: mark it `checking`, then apply
the (possibly skipped) probe result. -/
def cycleStep (host : String) (s : EndpointState) (r : PortStatus) (now : Nat) :
    EndpointState × List Event :=
  applyResult (markChecking s) (roleResult host r) now

/-- Initial endpoint state: status `"idle"`, no `closedTimestamps` entry,
no `emailSent` entry (part_002 lines 40-51). -/
def startState : EndpointState :=
  { status := .idle, closedSince := none, emailSent := false }

/-- States that the tracked state of an endpoint can occupy at cycle boundaries:
the initial state, and the result of any probe cycle.  The probe wrapper
`checkPort` only ever returns `"open"` or `"closed"` (part_002 lines
112-125), hence the restriction on `r`. -/
inductive Reachable (host : String) : EndpointState → Prop where
  | init : Reachable host startState
  | step (s : EndpointState) (r : PortStatus) (now : Nat)
      (hr : r = .open_ ∨ r = .closed)
      (h : Reachable host s) :
      Reachable host (cycleStep host s r now).1

/-- A run of consecutive probe cycles all observing `closed`, at the given
timestamps. -/
def runClosed (host : String) (s : EndpointState) : List Nat → EndpointState × List Event
  | [] => (s, [])
  | t :: ts =>
    let p := cycleStep host s .closed t
    let q := runClosed host p.1 ts
    (q.1, p.2 ++ q.2)

/-- Recognizer for Notifier-invocation events. -/
def isEmailAlert : Event → Bool
  | .emailAlert _ => true
  | _ => false

/-- Number of Notifier invocations in an event trace. -/
def emailCount (evs : List Event) : Nat := (evs.filter isEmailAlert).length

/-- Probe result produced by the TCP check of the edge function
(part_001 lines 16-57): `{ open, time_ms, message }`.  The spec calls the
fields `open`, `elapsedMs` and `detail`; `open_` renders the reserved
word `open`. -/
structure ProbeResult where
  open_ : Bool
  time_ms : Nat
  message : String
deriving DecidableEq, Repr

/-- Outcome of racing `Deno.connect` against the timeout timer in
`checkPortConnection` (part_001 lines 23-30), abstracting the network:
the connection wins, the timer wins, or the connect attempt fails with
an error message; each carries the rounded wall-clock duration
`performance.now() - startTime`. -/
inductive ConnectOutcome where
  | connected (elapsedMs : Nat)
  | timedOut (elapsedMs : Nat)
  | failed (errMsg : String) (elapsedMs : Nat)
deriving DecidableEq, Repr

/-- Model of `checkPortConnection` (part_001 lines 16-57): a successful connect is
closed immediately and reported open; the Connection-timeout rejection
is reported closed with message `"Connection timed out"`; any other error
is reported closed with message `"Connection error: <error text>"`. -/
def checkPortConnection : ConnectOutcome → ProbeResult
  | .connected e => { open_ := true, time_ms := e, message := "Successfully connected" }
  | .timedOut e => { open_ := false, time_ms := e, message := "Connection timed out" }
  | .failed m e => { open_ := false, time_ms := e, message := "Connection error: " ++ m }

/-- The frontend probe wrapper `checkPort` (part_002 lines 112-125): a
successful invocation of the check-port function yields `"open"` or
`"closed"` from `data.open`; a thrown error (including an error returned
by the invocation) is caught and reported as `"closed"`. -/
def checkPort : Except String ProbeResult → PortStatus
  | .ok d => if d.open_ then .open_ else .closed
  | .error _ => .closed

/-- Registry entry of one brand (part_001 lines 7-14 and part_002
lines 22-29, which are identical). -/
structure BrandConfig where
  host : String
  default_port : Nat
  brain_net_ip : String
  live_ip : String
deriving DecidableEq, Repr

/-- The `BRANDS` registry (part_001 lines 7-14, part_002 lines 22-29). -/
def BRANDS : List (String × BrandConfig) :=
  [("Bareeze", ⟨"barz.eastgateindustries.com", 20000, "122.129.92.25", "202.59.94.86"⟩),
   ("Bareeze Men", ⟨"bman.eastgateindustries.com", 20000, "122.129.92.26", "202.59.94.92"⟩),
   ("Chineyere", ⟨"chny.eastgateindustries.com", 20000, "122.129.92.28", "202.59.94.88"⟩),
   ("Mini Minor", ⟨"mmnr.eastgateindustries.com", 20000, "122.129.92.29", "202.59.94.87"⟩),
   ("Rangja", ⟨"rnja.eastgateindustries.com", 20000, "122.129.92.30", "202.59.94.91"⟩),
   ("The Entertainer", ⟨"te.eastgateindustries.com", 20000, "", "202.59.94.93"⟩)]

/-- Timeout conversion and clamping in the edge-function handler:
`Math.min(Math.max(timeout * 1000, 1000), 30000)` (part_001 line 94),
with `timeout` the caller-supplied value in seconds. -/
def clampTimeoutMs (timeoutSeconds : Int) : Int :=
  min (max (timeoutSeconds * 1000) 1000) 30000

/-- The JSON body of a check-port request:
`const { brand, port, timeout = 3, ip } = await req.json()`
(part_001 line 66).  `none` models an absent field. -/
structure CheckRequest where
  brand : Option String
  port : Option Int
  timeout : Option Int
  ip : Option String
deriving DecidableEq, Repr

/-- Body of an edge-function response: either the error object
`{ error }` or the success object
`{ open, host, port, time_ms, message, brand }` (part_001 lines 70-113). -/
inductive HandlerBody where
  | errorMsg (msg : String)
  | result (open_ : Bool) (host : String) (port : Int) (time_ms : Nat)
      (message : String) (brand : String)
deriving DecidableEq, Repr

/-- An edge-function response: HTTP status plus body. -/
structure HandlerResponse where
  status : Nat
  body : HandlerBody
deriving DecidableEq, Repr

/-- Host resolution `ip || BRANDS[brand].host` (part_001 line 80): a
missing or empty `ip` falls back to the host of the brand. -/
def resolveHost (cfg : BrandConfig) (ip : Option String) : String :=
  match ip with
  | none => cfg.host
  | some i => if i = "" then cfg.host else i

/-- The `Deno.serve` handler of the check-port function (part_001 lines
59-124).  `req = none` models a request whose body fails to parse (the
`catch` branch, lines 114-123, HTTP 500).  A missing or empty (falsy)
`brand`, or one absent from `BRANDS`, is rejected with HTTP 400 (lines
69-77).  A missing or zero (falsy) `port`, or one outside `[1, 65535]`,
is rejected with HTTP 400 (lines 83-91).  Otherwise the probe, abstracted
as a function of the clamped timeout, is run and its result returned with
the default HTTP status 200 (lines 94-113). -/
def handleCheckPort (req : Option CheckRequest) (probe : Int → ProbeResult) :
    HandlerResponse :=
  match req with
  | none => { status := 500, body := .errorMsg "Internal server error" }
  | some r =>
    match r.brand with
    | none => { status := 400, body := .errorMsg "Unknown or missing brand" }
    | some b =>
      if b = "" then { status := 400, body := .errorMsg "Unknown or missing brand" }
      else
        match BRANDS.lookup b with
        | none => { status := 400, body := .errorMsg "Unknown or missing brand" }
        | some cfg =>
          let host := resolveHost cfg r.ip
          match r.port with
          | none => { status := 400, body := .errorMsg "Invalid port number" }
          | some p =>
            if p = 0 ∨ p < 1 ∨ 65535 < p then
              { status := 400, body := .errorMsg "Invalid port number" }
            else
              let result := probe (clampTimeoutMs (r.timeout.getD 3))
              { status := 200,
                body := .result result.open_ host p result.time_ms result.message b }

/-- A request that passes both validation checks of the handler: a known,
non-empty brand and a truthy port in `[1, 65535]`. -/
def validRequest (r : CheckRequest) : Bool :=
  (match r.brand with
   | none => false
   | some b => if b = "" then false else (BRANDS.lookup b).isSome)
  &&
  (match r.port with
   | none => false
   | some p => if p = 0 ∨ p < 1 ∨ 65535 < p then false else true)

/-- Probe message field of a success response, if any. -/
def responseMessage (resp : HandlerResponse) : Option String :=
  match resp.body with
  | .result _ _ _ _ m _ => some m
  | .errorMsg _ => none

/-- Uppercase rendering of a status, `status.toUpperCase()` in the status
cells (part_002 lines 342 and 367). -/
def statusUpper : PortStatus → String
  | .checking => "CHECKING"
  | .open_ => "OPEN"
  | .closed => "CLOSED"
  | .idle => "IDLE"

/-- Rendering of the Brain Net status cell (part_002 line 342):
`!brandStatus.brainNetIp || brandStatus.brainNetStatus === "idle" ? "-" :
brandStatus.brainNetStatus.toUpperCase()`. -/
def renderBrainNetStatus (brainNetIp : String) (st : PortStatus) : String :=
  if brainNetIp = "" ∨ st = .idle then "-" else statusUpper st

/-- Fixture: the state reached from `startState` by one cycle observing
`closed` at time 0. -/
def sClosed0 : EndpointState := (cycleStep "h" startState .closed 0).1

/-- Fixture: a valid check-port request (known brand, in-range port). -/
def rValid : CheckRequest :=
  { brand := some "Bareeze", port := some 20000, timeout := some 999,
    ip := some "1.2.3.4" }

/-- Fixture: an invalid check-port request (out-of-range port 70000). -/
def rBadPort : CheckRequest :=
  { brand := some "Bareeze", port := some 70000, timeout := some 3, ip := none }

/-- Fixture: registry entry of the brand `"Bareeze"`. -/
def cfgBareeze : BrandConfig :=
  ⟨"barz.eastgateindustries.com", 20000, "122.129.92.25", "202.59.94.86"⟩

/-- Fixture: a probe function reporting the port closed. -/
def probeClosed : Int → ProbeResult :=
  fun _ => { open_ := false, time_ms := 42, message := "Connection timed out" }

/-- Fixture: a probe function reporting the port open. -/
def probeOpen : Int → ProbeResult :=
  fun _ => { open_ := true, time_ms := 7, message := "Successfully connected" }

example : cycleStep "h" startState .closed 0 =
    ({ status := .closed, closedSince := some 0, emailSent := false },
      [Event.startAlarm, Event.toastClosed]) := by decide

example : emailCount (runClosed "h" startState [0, 30000, 125000]).2 = 1 := by decide

example : emailCount (runClosed "h" startState [0, 30000, 125000, 150000]).2 = 1 := by decide

/-- Marking an endpoint `checking` before applying the probe result does
not change what the result handler does: every branch overwrites the
status cell and reads only the tracking maps, which `markChecking` leaves
untouched. -/
lemma applyResult_markChecking (s : EndpointState) (r : PortStatus) (now : Nat) :
    applyResult (markChecking s) r now = applyResult s r now := by
  cases s
  rfl

/-- For a configured endpoint the probe result is fed through unchanged. -/
lemma roleResult_of_ne (host : String) (hh : host ≠ "") (r : PortStatus) :
    roleResult host r = r := by
  simp [roleResult, hh]

/-- For a configured endpoint a cycle is exactly the result handler. -/
lemma cycleStep_of_ne (host : String) (hh : host ≠ "") (s : EndpointState)
    (r : PortStatus) (now : Nat) :
    cycleStep host s r now = applyResult s r now := by
  rw [cycleStep, roleResult_of_ne host hh, applyResult_markChecking]

/-- A fresh closure: tracking starts, the alarm and notice fire, and the
escalation check cannot fire at the same step because the recorded
duration is zero. -/
lemma applyResult_closed_none (s : EndpointState) (now : Nat)
    (h : s.closedSince = none) :
    applyResult s .closed now =
      ({ status := .closed, closedSince := some now, emailSent := false },
        [Event.startAlarm, Event.toastClosed]) := by
  cases s
  simp_all [applyResult, escalationThresholdMs]

/-- A repeat closed observation: the recorded timestamp is kept, and the
Notifier fires exactly when the dwell threshold is reached and no email
was sent yet for this episode. -/
lemma applyResult_closed_some (s : EndpointState) (t0 : Nat) (now : Nat)
    (h : s.closedSince = some t0) :
    applyResult s .closed now =
      if escalationThresholdMs ≤ now - t0 ∧ s.emailSent = false then
        ({ s with status := .closed, emailSent := true }, [Event.emailAlert t0])
      else
        ({ s with status := .closed }, []) := by
  cases s
  simp_all [applyResult]

/-- Recovery from a tracked closure clears all tracking state. -/
lemma applyResult_open_some (s : EndpointState) (t0 : Nat) (now : Nat)
    (h : s.closedSince = some t0) :
    applyResult s .open_ now =
      ({ status := .open_, closedSince := none, emailSent := false },
        [Event.stopAlarm, Event.toastRecovered]) := by
  cases s
  simp_all [applyResult]

/-- An open observation with no tracked closure only updates the status. -/
lemma applyResult_open_none (s : EndpointState) (now : Nat)
    (h : s.closedSince = none) :
    applyResult s .open_ now = ({ s with status := .open_ }, []) := by
  cases s
  simp_all [applyResult]

/-- A skipped (idle) result only updates the status cell. -/
lemma applyResult_idle (s : EndpointState) (now : Nat) :
    applyResult s .idle now = ({ s with status := .idle }, []) := by
  cases s
  simp [applyResult]

/-- Cycle-boundary invariant: a `closedTimestamps` entry exists exactly
while the status is `closed`, and an unconfigured endpoint never leaves
its initial state. -/
lemma reachable_inv (host : String) (s : EndpointState)
    (h : Reachable host s) :
    (s.closedSince ≠ none ↔ s.status = .closed) ∧
      (host = "" → s = startState) := by
  induction h with
  | init => simp [startState]
  | step s r now hr h ih =>
    by_cases hh : host = ""
    · subst hh
      have hs : s = startState := ih.2 rfl
      subst hs
      have : cycleStep "" startState r now = (startState, []) := by
        simp [cycleStep, roleResult, markChecking, applyResult_idle, startState]
      rw [this]
      simp [startState]
    · rw [cycleStep_of_ne host hh]
      rcases hr with hr | hr
      · subst hr
        rcases hcs : s.closedSince with _ | t0
        · rw [applyResult_open_none s now hcs]
          simp [hcs, hh]
        · rw [applyResult_open_some s t0 now hcs]
          simp [hh]
      · subst hr
        rcases hcs : s.closedSince with _ | t0
        · rw [applyResult_closed_none s now hcs]
          simp [hh]
        · rw [applyResult_closed_some s t0 now hcs]
          split <;> simp [hcs, hh]

/-- Notifier invocations in a concatenation. -/
lemma emailCount_append (a b : List Event) :
    emailCount (a ++ b) = emailCount a + emailCount b := by
  simp [emailCount, List.filter_append]

/-- A checking-only result leaves the tracking state untouched.  The probe
wrapper never returns it; the case exists because status values and probe
results share the `PortStatus` type. -/
lemma applyResult_checking (s : EndpointState) (now : Nat) :
    applyResult s .checking now = ({ s with status := .checking }, []) := by
  cases s
  simp [applyResult]

/-- Along a run of closed observations the recorded closure timestamp is
kept, at most one Notifier call fires, every Notifier call carries the
recorded timestamp, and once `emailSent` holds no further call fires. -/
lemma runClosed_tracked (host : String) (hh : host ≠ "") (t0 : Nat)
    (ts : List Nat) :
    ∀ s : EndpointState, s.closedSince = some t0 →
      (runClosed host s ts).1.closedSince = some t0 ∧
      emailCount (runClosed host s ts).2 ≤ 1 ∧
      (∀ c, Event.emailAlert c ∈ (runClosed host s ts).2 → c = t0) ∧
      (s.emailSent = true →
        emailCount (runClosed host s ts).2 = 0 ∧
        (runClosed host s ts).1.emailSent = true) := by
  induction ts with
  | nil =>
    intro s hs
    simp [runClosed, emailCount, hs]
  | cons t ts ih =>
    intro s hs
    have hrun : runClosed host s (t :: ts) =
        ((runClosed host (cycleStep host s .closed t).1 ts).1,
          (cycleStep host s .closed t).2 ++
            (runClosed host (cycleStep host s .closed t).1 ts).2) := rfl
    have hstep := cycleStep_of_ne host hh s .closed t
    rw [applyResult_closed_some s t0 t hs] at hstep
    by_cases hc : escalationThresholdMs ≤ t - t0 ∧ s.emailSent = false
    · rw [if_pos hc] at hstep
      have ih2 := ih { s with status := .closed, emailSent := true } hs
      rw [hrun, hstep]
      have hrest := ih2.2.2.2 rfl
      refine ⟨ih2.1, ?_, ?_, ?_⟩
      · rw [emailCount_append, hrest.1]
        simp [emailCount, isEmailAlert]
      · intro c hc2
        rcases List.mem_append.1 hc2 with hc2 | hc2
        · simp at hc2
          exact hc2
        · exact ih2.2.2.1 c hc2
      · intro hse
        rw [hse] at hc
        exact absurd hc.2 (by simp)
    · rw [if_neg hc] at hstep
      have ih2 := ih { s with status := .closed } hs
      rw [hrun, hstep]
      refine ⟨ih2.1, ?_, ?_, ?_⟩
      · rw [emailCount_append]
        simpa [emailCount] using ih2.2.1
      · intro c hc2
        rcases List.mem_append.1 hc2 with hc2 | hc2
        · simp at hc2
        · exact ih2.2.2.1 c hc2
      · intro hse
        have := ih2.2.2.2 (by simpa using hse)
        rw [emailCount_append]
        simpa [emailCount] using this

/-- C1: For every configured endpoint and every continuous closed episode
— a run of closed observations starting from a state with no tracked
closure — the external Notifier (the email alert) is invoked at most
once; it fires only at a closed observation where
`now - closedSinceEpochMs >= 120000` and `escalationSent` (`emailSent`)
is false; it carries the original `closedSinceEpochMs` of the episode (the
head of the episode timestamps) as `closedSince`; and the firing step
sets `escalationSent` to true, so no later probe cycle of the same
episode invokes the Notifier again, regardless of how many cycles
observe still-closed. -/
theorem escalation_fires_at_most_once_per_episode
    (host : String) (s : EndpointState) (ts : List Nat)
    (hh : host ≠ "") (hs : s.closedSince = none) :
    escalationThresholdMs = 120000 ∧
    emailCount (runClosed host s ts).2 ≤ 1 ∧
    (∀ c, Event.emailAlert c ∈ (runClosed host s ts).2 → ts.head? = some c) ∧
    (∀ (s2 : EndpointState) (now c : Nat),
      Event.emailAlert c ∈ (cycleStep host s2 .closed now).2 →
        s2.closedSince = some c ∧ s2.emailSent = false ∧
        escalationThresholdMs ≤ now - c ∧
        (cycleStep host s2 .closed now).1.emailSent = true) ∧
    (∀ (s2 : EndpointState) (r : PortStatus) (now c : Nat),
      Event.emailAlert c ∈ (cycleStep host s2 r now).2 → r = .closed) := by
  refine ⟨rfl, ?_, ?_, ?_, ?_⟩
  · cases ts with
    | nil => simp [runClosed, emailCount]
    | cons t0 rest =>
      have hrun : runClosed host s (t0 :: rest) =
          ((runClosed host (cycleStep host s .closed t0).1 rest).1,
            (cycleStep host s .closed t0).2 ++
              (runClosed host (cycleStep host s .closed t0).1 rest).2) := rfl
      have hstep := cycleStep_of_ne host hh s .closed t0
      rw [applyResult_closed_none s t0 hs] at hstep
      rw [hrun, hstep, emailCount_append]
      have := (runClosed_tracked host hh t0 rest
        { status := .closed, closedSince := some t0, emailSent := false } rfl).2.1
      simpa [emailCount, isEmailAlert] using this
  · cases ts with
    | nil => simp [runClosed]
    | cons t0 rest =>
      have hrun : runClosed host s (t0 :: rest) =
          ((runClosed host (cycleStep host s .closed t0).1 rest).1,
            (cycleStep host s .closed t0).2 ++
              (runClosed host (cycleStep host s .closed t0).1 rest).2) := rfl
      have hstep := cycleStep_of_ne host hh s .closed t0
      rw [applyResult_closed_none s t0 hs] at hstep
      intro c hc2
      rw [hrun, hstep] at hc2
      rcases List.mem_append.1 hc2 with hc2 | hc2
      · simp at hc2
      · have := (runClosed_tracked host hh t0 rest
          { status := .closed, closedSince := some t0, emailSent := false } rfl).2.2.1 c hc2
        simp [this]
  · intro s2 now c hmem
    rw [cycleStep_of_ne host hh] at hmem ⊢
    rcases hcs : s2.closedSince with _ | t
    · rw [applyResult_closed_none s2 now hcs] at hmem
      simp at hmem
    · rw [applyResult_closed_some s2 t now hcs] at hmem ⊢
      by_cases hcond : escalationThresholdMs ≤ now - t ∧ s2.emailSent = false
      · rw [if_pos hcond] at hmem ⊢
        simp at hmem
        subst hmem
        exact ⟨rfl, hcond.2, hcond.1, rfl⟩
      · rw [if_neg hcond] at hmem
        simp at hmem
  · intro s2 r now c hmem
    rw [cycleStep_of_ne host hh] at hmem
    cases r with
    | closed => rfl
    | open_ =>
      rcases hcs : s2.closedSince with _ | t
      · rw [applyResult_open_none s2 now hcs] at hmem
        simp at hmem
      · rw [applyResult_open_some s2 t now hcs] at hmem
        simp at hmem
    | idle =>
      rw [applyResult_idle s2 now] at hmem
      simp at hmem
    | checking =>
      rw [applyResult_checking s2 now] at hmem
      simp at hmem

/-- Witness for C1: a concrete five-cycle episode at 30s cadence in which
the threshold is crossed; exactly one Notifier call occurs. -/
theorem escalation_fires_at_most_once_per_episode_witness :
    ("h" : String) ≠ "" ∧ startState.closedSince = none ∧
    emailCount (runClosed "h" startState [0, 30000, 60000, 90000, 125000]).2 ≤ 1 :=
  ⟨by decide, rfl,
    (escalation_fires_at_most_once_per_episode "h" startState
      [0, 30000, 60000, 90000, 125000] (by decide) rfl).2.1⟩

/-- The closed state used by several witnesses is reachable: one cycle
from the initial state observing `closed` at time 0. -/
lemma sClosed0_reachable : Reachable "h" sClosed0 :=
  Reachable.step startState .closed 0 (Or.inr rfl) Reachable.init

/-- Counterexample to C2 as stated ("at all times", "never present while
the status is anything other than closed"): inside a probe cycle the code
first sets the status cell to `"checking"` (part_002 lines 135-139) while
the `closedTimestamps` entry of an ongoing closed episode is retained, so
there is an observable state whose status is not `closed` but whose
`closedSinceEpochMs` is set. -/
theorem closedSince_persists_while_status_checking :
    (markChecking sClosed0).status ≠ PortStatus.closed ∧
    (markChecking sClosed0).closedSince = some 0 := by
  constructor <;> decide

/-- C2 (amended): at every cycle-boundary state — the initial state and
every state reached after a probe result has been applied —
`closedSinceEpochMs` is set if and only if the status is `closed`; the
transient mid-cycle `checking` marker retains the previous value of
`closedSinceEpochMs` unchanged. -/
theorem closed_timestamp_iff_closed_at_cycle_boundary
    (host : String) (s : EndpointState) (h : Reachable host s) :
    (s.closedSince ≠ none ↔ s.status = PortStatus.closed) ∧
    (markChecking s).closedSince = s.closedSince :=
  ⟨(reachable_inv host s h).1, rfl⟩

/-- Witness for C2 (amended) at the reachable closed state. -/
theorem closed_timestamp_iff_closed_at_cycle_boundary_witness :
    (sClosed0.closedSince ≠ none ↔ sClosed0.status = PortStatus.closed) ∧
    (markChecking sClosed0).closedSince = sClosed0.closedSince :=
  closed_timestamp_iff_closed_at_cycle_boundary "h" sClosed0 sClosed0_reachable

/-- C3: For every configured endpoint whose previous status is not
`closed`, a probe observing a closed result sets status to `closed`,
records `closedSinceEpochMs := now`, sets `escalationSent` (`emailSent`)
to false, starts the repeating local alarm and surfaces the immediate
"port closed" notice; the alarm repeats at the fixed cadence of 3000 ms,
within the stated 2-3 second range, until stopped. -/
theorem new_closure_starts_alarm_and_notice
    (host : String) (s : EndpointState) (now : Nat)
    (h : Reachable host s) (hh : host ≠ "")
    (hnc : s.status ≠ PortStatus.closed) :
    (cycleStep host s .closed now).1 =
      { status := .closed, closedSince := some now, emailSent := false } ∧
    (cycleStep host s .closed now).2 = [Event.startAlarm, Event.toastClosed] ∧
    alarmIntervalMs = 3000 ∧ 2000 ≤ alarmIntervalMs ∧ alarmIntervalMs ≤ 3000 := by
  have hcs : s.closedSince = none := by
    by_contra hne
    exact hnc (((reachable_inv host s h).1).1 hne)
  rw [cycleStep_of_ne host hh, applyResult_closed_none s now hcs]
  exact ⟨rfl, rfl, rfl, by decide, by decide⟩

/-- Witness for C3: the very first cycle of a configured endpoint
observes `closed` at time 5. -/
theorem new_closure_starts_alarm_and_notice_witness :
    startState.status ≠ PortStatus.closed ∧
    (cycleStep "h" startState .closed 5).1 =
      { status := .closed, closedSince := some 5, emailSent := false } :=
  ⟨by decide,
    (new_closure_starts_alarm_and_notice "h" startState 5 Reachable.init
      (by decide) (by decide)).1⟩

/-- C4: For every configured endpoint whose previous status is `closed`,
a probe observing an open result clears `closedSinceEpochMs` and
`escalationSent`, sets status to `open`, stops the repeating alarm and
surfaces the "recovered" notice, and no Notifier call is made on
recovery. -/
theorem recovery_clears_tracking_and_stops_alarm
    (host : String) (s : EndpointState) (now : Nat)
    (h : Reachable host s) (hh : host ≠ "")
    (hc : s.status = PortStatus.closed) :
    (cycleStep host s .open_ now).1 =
      { status := .open_, closedSince := none, emailSent := false } ∧
    (cycleStep host s .open_ now).2 = [Event.stopAlarm, Event.toastRecovered] ∧
    (∀ c, Event.emailAlert c ∉ (cycleStep host s .open_ now).2) := by
  have hne : s.closedSince ≠ none := ((reachable_inv host s h).1).2 hc
  rcases hcs : s.closedSince with _ | t0
  · exact absurd hcs hne
  · rw [cycleStep_of_ne host hh, applyResult_open_some s t0 now hcs]
    refine ⟨rfl, rfl, ?_⟩
    intro c
    simp

/-- Witness for C4: recovery of the reachable closed state at time 9. -/
theorem recovery_clears_tracking_and_stops_alarm_witness :
    sClosed0.status = PortStatus.closed ∧
    (cycleStep "h" sClosed0 .open_ 9).1 =
      { status := .open_, closedSince := none, emailSent := false } :=
  ⟨by decide,
    (recovery_clears_tracking_and_stops_alarm "h" sClosed0 9 sClosed0_reachable
      (by decide) (by decide)).1⟩

/-- C5: A probe timeout and any probe connection error are both reported
`open = false`, and both are mapped by the frontend probe wrapper to
`"closed"`, identically to a plainly closed port; a failed invocation of
the probe boundary itself (a thrown or returned error) is also reported
as `"closed"`; the wrapper is total — every invocation outcome degrades
to `"open"` or `"closed"`, so the monitoring loop continues — and an
unconfigured endpoint degrades to the skip-and-report-unknown (`"idle"`)
path. -/
theorem probe_failures_degrade_to_closed
    (e : Nat) (m err : String) (x : Except String ProbeResult)
    (r : PortStatus) :
    (checkPortConnection (.timedOut e)).open_ = false ∧
    (checkPortConnection (.failed m e)).open_ = false ∧
    checkPort (.ok (checkPortConnection (.timedOut e))) = PortStatus.closed ∧
    checkPort (.ok (checkPortConnection (.failed m e))) = PortStatus.closed ∧
    checkPort (.error err) = PortStatus.closed ∧
    (checkPort x = PortStatus.open_ ∨ checkPort x = PortStatus.closed) ∧
    roleResult "" r = PortStatus.idle := by
  refine ⟨rfl, rfl, rfl, rfl, rfl, ?_, rfl⟩
  cases x with
  | error e2 => exact Or.inr rfl
  | ok d =>
    by_cases hd : d.open_
    · exact Or.inl (by simp [checkPort, hd])
    · exact Or.inr (by simp [checkPort, hd])

/-- Counterexample to C9 as stated: the success and timeout messages are
`"Successfully connected"` and `"Connection timed out"`, not the literal
strings `"connected"` and `"timed out"` the claim gives for `detail`. -/
theorem probe_detail_not_literal_connected :
    (checkPortConnection (.connected 5)).open_ = true ∧
    (checkPortConnection (.connected 5)).message ≠ "connected" ∧
    (checkPortConnection (.timedOut 5)).message ≠ "timed out" := by
  refine ⟨rfl, ?_, ?_⟩ <;> decide

/-- C9 (amended): if the TCP connect succeeds before the timer fires the
result is `open = true` with `elapsedMs` equal to the measured wall-clock
duration and message `"Successfully connected"` (the connection being
closed immediately); if the timer fires first the result is
`open = false` with the measured duration and message
`"Connection timed out"`. -/
theorem probe_reports_race_outcome (e : Nat) :
    checkPortConnection (.connected e) =
      { open_ := true, time_ms := e, message := "Successfully connected" } ∧
    checkPortConnection (.timedOut e) =
      { open_ := false, time_ms := e, message := "Connection timed out" } :=
  ⟨rfl, rfl⟩

/-- The `validRequest` check never inspects the timeout field. -/
lemma validRequest_set_timeout (r : CheckRequest) (x : Option Int) :
    validRequest { r with timeout := x } = validRequest r := by
  cases r
  rfl

/-- A request passing both validation checks is answered with the default
HTTP 200 status and the success body built from the probe run at the
clamped timeout. -/
lemma handleCheckPort_valid (r : CheckRequest) (probe : Int → ProbeResult)
    (hv : validRequest r = true) :
    ∃ b cfg p, r.brand = some b ∧ BRANDS.lookup b = some cfg ∧
      r.port = some p ∧
      handleCheckPort (some r) probe =
        { status := 200,
          body := .result (probe (clampTimeoutMs (r.timeout.getD 3))).open_
            (resolveHost cfg r.ip) p
            (probe (clampTimeoutMs (r.timeout.getD 3))).time_ms
            (probe (clampTimeoutMs (r.timeout.getD 3))).message b } := by
  obtain ⟨brand, port, timeout, ip⟩ := r
  cases brand with
  | none => simp [validRequest] at hv
  | some b =>
    cases port with
    | none => simp [validRequest] at hv
    | some p =>
      by_cases hb : b = ""
      · simp [validRequest, hb] at hv
      · rcases hcfg : BRANDS.lookup b with _ | cfg
        · simp [validRequest, hb, hcfg] at hv
        · by_cases hp : p = 0 ∨ p < 1 ∨ 65535 < p
          · simp [validRequest, hb, hcfg, hp] at hv
          · exact ⟨b, cfg, p, rfl, hcfg, rfl,
              by simp [handleCheckPort, hb, hcfg, hp]⟩

/-- A request failing either validation check is rejected with HTTP 400
and an error body, without the probe ever being consulted. -/
lemma handleCheckPort_invalid (r : CheckRequest) (p1 p2 : Int → ProbeResult)
    (hv : validRequest r = false) :
    (handleCheckPort (some r) p1).status = 400 ∧
    handleCheckPort (some r) p1 = handleCheckPort (some r) p2 ∧
    (∃ msg, (handleCheckPort (some r) p1).body = HandlerBody.errorMsg msg) := by
  obtain ⟨brand, port, timeout, ip⟩ := r
  cases brand with
  | none => exact ⟨rfl, rfl, "Unknown or missing brand", rfl⟩
  | some b =>
    by_cases hb : b = ""
    · refine ⟨?_, ?_, "Unknown or missing brand", ?_⟩ <;>
        simp [handleCheckPort, hb]
    · rcases hcfg : BRANDS.lookup b with _ | cfg
      · refine ⟨?_, ?_, "Unknown or missing brand", ?_⟩ <;>
          simp [handleCheckPort, hb, hcfg]
      · cases port with
        | none =>
          refine ⟨?_, ?_, "Invalid port number", ?_⟩ <;>
            simp [handleCheckPort, hb, hcfg]
        | some p =>
          by_cases hp : p = 0 ∨ p < 1 ∨ 65535 < p
          · refine ⟨?_, ?_, "Invalid port number", ?_⟩ <;>
              simp [handleCheckPort, hb, hcfg, hp]
          · exfalso
            simp [validRequest, hb, hcfg, hp] at hv

/-- C6: For every call to the probe boundary with a valid brand and port,
the caller-supplied timeout in seconds is converted to milliseconds and
clamped to `[1000, 30000]` — for every caller-supplied integer value —
and a timeout outside this range is never rejected: substituting any
timeout into a valid request still yields HTTP 200, and the probe runs at
the clamped value. -/
theorem timeout_clamped_never_rejected
    (t : Int) (r : CheckRequest) (probe : Int → ProbeResult)
    (hv : validRequest r = true) :
    1000 ≤ clampTimeoutMs t ∧ clampTimeoutMs t ≤ 30000 ∧
    clampTimeoutMs t = min (max (t * 1000) 1000) 30000 ∧
    (handleCheckPort (some { r with timeout := some t }) probe).status = 200 ∧
    responseMessage (handleCheckPort (some r) probe) =
      some (probe (clampTimeoutMs (r.timeout.getD 3))).message := by
  refine ⟨le_min (le_max_right _ _) (by norm_num), min_le_right _ _, rfl, ?_, ?_⟩
  · have hv2 : validRequest { r with timeout := some t } = true := by
      rw [validRequest_set_timeout]
      exact hv
    obtain ⟨b, cfg, p, _, _, _, heq⟩ :=
      handleCheckPort_valid { r with timeout := some t } probe hv2
    rw [heq]
  · obtain ⟨b, cfg, p, _, _, _, heq⟩ := handleCheckPort_valid r probe hv
    rw [heq]
    rfl

/-- Witness for C6: a valid request whose timeout of 999 seconds clamps
to 30000 ms, and an out-of-range substituted timeout of -7 seconds is
still answered with HTTP 200. -/
theorem timeout_clamped_never_rejected_witness :
    validRequest rValid = true ∧
    clampTimeoutMs 999 = 30000 ∧
    (handleCheckPort (some { rValid with timeout := some (-7) })
      probeClosed).status = 200 := by
  have H := timeout_clamped_never_rejected (-7) rValid probeClosed rfl
  exact ⟨rfl, by decide, H.2.2.2.1⟩

/-- C7: Every call to the probe boundary whose brand is unknown, missing
or empty, or whose port is missing, zero or outside `[1, 65535]` (for
example port 70000), is rejected with the client-error status 400 and an
error body; the response does not depend on the probe, so no probe is
attempted, and the handler being a pure function of its request, no
endpoint state is mutated by the rejection. -/
theorem invalid_input_rejected_with_400
    (r : CheckRequest) (p1 p2 : Int → ProbeResult)
    (hv : validRequest r = false) :
    (handleCheckPort (some r) p1).status = 400 ∧
    handleCheckPort (some r) p1 = handleCheckPort (some r) p2 ∧
    (∃ msg, (handleCheckPort (some r) p1).body = HandlerBody.errorMsg msg) :=
  handleCheckPort_invalid r p1 p2 hv

/-- Witness for C7: a request for a known brand with port 70000 is
rejected with HTTP 400. -/
theorem invalid_input_rejected_with_400_witness :
    validRequest rBadPort = false ∧
    (handleCheckPort (some rBadPort) probeClosed).status = 400 :=
  ⟨rfl, (invalid_input_rejected_with_400 rBadPort probeClosed probeOpen rfl).1⟩

/-- C10: Every request with a known brand and an in-range port is
answered with HTTP success status 200 for every probe result — in
particular when the probe finds the port closed, unreachable or timed
out, the failure is reported inside a success response as
`{ open, host, port, time_ms, message, brand }`; the only handler
statuses are 200, 400 and 500, a body that fails to parse yields 500,
a parsed request yields 400 exactly when its input is invalid, and a
parsed request never yields 500. -/
theorem valid_request_yields_200_even_when_closed
    (r : CheckRequest) (b : String) (cfg : BrandConfig) (p : Int)
    (probe : Int → ProbeResult)
    (hb : r.brand = some b) (hbne : ¬ b = "")
    (hcfg : BRANDS.lookup b = some cfg)
    (hp : r.port = some p) (hrange : ¬ (p = 0 ∨ p < 1 ∨ 65535 < p)) :
    handleCheckPort (some r) probe =
      { status := 200,
        body := .result (probe (clampTimeoutMs (r.timeout.getD 3))).open_
          (resolveHost cfg r.ip) p
          (probe (clampTimeoutMs (r.timeout.getD 3))).time_ms
          (probe (clampTimeoutMs (r.timeout.getD 3))).message b } ∧
    (handleCheckPort (some r) probe).status = 200 ∧
    (∀ (q : Option CheckRequest) (probe2 : Int → ProbeResult),
      (handleCheckPort q probe2).status = 200 ∨
      (handleCheckPort q probe2).status = 400 ∨
      (handleCheckPort q probe2).status = 500) ∧
    (handleCheckPort none probe).status = 500 ∧
    (∀ (r2 : CheckRequest) (probe2 : Int → ProbeResult),
      ((handleCheckPort (some r2) probe2).status = 400 ↔
        validRequest r2 = false)) ∧
    (∀ (r2 : CheckRequest) (probe2 : Int → ProbeResult),
      (handleCheckPort (some r2) probe2).status ≠ 500) := by
  have hkey : ∀ (r2 : CheckRequest) (probe2 : Int → ProbeResult),
      (handleCheckPort (some r2) probe2).status =
        if validRequest r2 = true then 200 else 400 := by
    intro r2 probe2
    by_cases hv : validRequest r2 = true
    · obtain ⟨b2, cfg2, p2, _, _, _, heq⟩ :=
        handleCheckPort_valid r2 probe2 hv
      rw [heq, if_pos hv]
    · rw [if_neg hv]
      exact (handleCheckPort_invalid r2 probe2 probe2
        (by revert hv; cases validRequest r2 <;> simp)).1
  have hmain : handleCheckPort (some r) probe =
      { status := 200,
        body := .result (probe (clampTimeoutMs (r.timeout.getD 3))).open_
          (resolveHost cfg r.ip) p
          (probe (clampTimeoutMs (r.timeout.getD 3))).time_ms
          (probe (clampTimeoutMs (r.timeout.getD 3))).message b } := by
    obtain ⟨brand, port, timeout, ip⟩ := r
    simp only [Option.some.injEq] at hb hp
    subst hb
    subst hp
    simp [handleCheckPort, hbne, hcfg, hrange]
  refine ⟨hmain, by rw [hmain], ?_, rfl, ?_, ?_⟩
  · intro q probe2
    cases q with
    | none => exact Or.inr (Or.inr rfl)
    | some r2 =>
      rw [hkey r2 probe2]
      by_cases hv : validRequest r2 = true
      · rw [if_pos hv]; exact Or.inl rfl
      · rw [if_neg hv]; exact Or.inr (Or.inl rfl)
  · intro r2 probe2
    rw [hkey r2 probe2]
    by_cases hv : validRequest r2 = true
    · rw [if_pos hv]
      simp [hv]
    · rw [if_neg hv]
      simp
      revert hv
      cases validRequest r2 <;> simp
  · intro r2 probe2
    rw [hkey r2 probe2]
    by_cases hv : validRequest r2 = true
    · rw [if_pos hv]; decide
    · rw [if_neg hv]; decide

/-- Witness for C10: the valid fixture request answered by a probe that
found the port closed still yields HTTP 200, while an unparsable body
yields HTTP 500. -/
theorem valid_request_yields_200_even_when_closed_witness :
    (handleCheckPort (some rValid) probeClosed).status = 200 ∧
    (probeClosed (clampTimeoutMs (rValid.timeout.getD 3))).open_ = false ∧
    (handleCheckPort none probeClosed).status = 500 := by
  have H := valid_request_yields_200_even_when_closed rValid "Bareeze"
    cfgBareeze 20000 probeClosed rfl (by decide) rfl rfl (by decide)
  exact ⟨H.2.1, rfl, H.2.2.2.1⟩

/-- C8: A brand role whose configured host is the empty string — as the
secondary (Brain Net) role of "The Entertainer" is — is never probed: the
fed result is `"idle"` regardless of any probe outcome, the endpoint
state stays the initial `idle` state with no closure tracked through
every cycle, a cycle emits no alarm, notice or Notifier event, the
registry indeed maps "The Entertainer" to an empty Brain Net host, and
the status cell of the role renders as `"-"`, distinct from the `"CLOSED"`
rendering. -/
theorem unconfigured_role_skipped_as_idle
    (s : EndpointState) (r st : PortStatus) (now : Nat)
    (h : Reachable "" s) :
    s = startState ∧ s.status = PortStatus.idle ∧ s.closedSince = none ∧
    roleResult "" r = PortStatus.idle ∧
    (cycleStep "" s r now).2 = [] ∧
    (cycleStep "" s r now).1 = startState ∧
    (BRANDS.lookup "The Entertainer").map (fun c => c.brain_net_ip) =
      some "" ∧
    renderBrainNetStatus "" st = "-" ∧
    renderBrainNetStatus "" st ≠ statusUpper PortStatus.closed := by
  have hs : s = startState := (reachable_inv "" s h).2 rfl
  subst hs
  have hcyc : cycleStep "" startState r now = (startState, []) := by
    simp [cycleStep, roleResult, markChecking, applyResult_idle, startState]
  refine ⟨rfl, rfl, rfl, rfl, ?_, ?_, rfl, ?_, ?_⟩
  · rw [hcyc]
  · rw [hcyc]
  · simp [renderBrainNetStatus]
  · simp [renderBrainNetStatus, statusUpper]

/-- Witness for C8: the initial state of the unconfigured role, probed
with a closed outcome, stays idle and emits nothing. -/
theorem unconfigured_role_skipped_as_idle_witness :
    startState.status = PortStatus.idle ∧
    (cycleStep "" startState .closed 0).2 = [] ∧
    renderBrainNetStatus "" PortStatus.closed = "-" := by
  have H := unconfigured_role_skipped_as_idle startState .closed .closed 0
    Reachable.init
  exact ⟨H.2.1, H.2.2.2.2.1, H.2.2.2.2.2.2.2.1⟩
